import Mathlib

/-!
Shallow embedding of xpra's `ClientConnection`
(`src/xpra/server/source/client_connection.py`) and proofs about its
packet scheduling, bandwidth allocation, av-sync computation, idle/grace
timers, capability validation and notification gating.

Machine integers in the source are Python arbitrary-precision ints; all
quantities that are non-negative in the source (sizes, speeds, limits,
timer ids, durations) are modelled as `Nat`, signed av-sync quantities as
`Int`.  Python `//` on non-negative ints is `Nat` division; division by
zero raises `ZeroDivisionError`, modelled with `Except`.
-/

namespace Xpra

/-- Module-level constant `GRACE_PERCENT = envint("XPRA_GRACE_PERCENT", 90)`,
at its default value. -/
def GRACE_PERCENT : Nat := 90

/-- Module-level constant `AV_SYNC_DELTA = envint("XPRA_AV_SYNC_DELTA", 0)`,
at its default value. -/
def AV_SYNC_DELTA : Int := 0

/-- Module-level constant `BANDWIDTH_DETECTION = envbool("XPRA_BANDWIDTH_DETECTION", True)`,
at its default value. -/
def BANDWIDTH_DETECTION : Bool := true

/-- A wire packet: message type plus numeric arguments (payload contents are
irrelevant to the scheduling logic, only identity matters). -/
abbrev Packet : Type := String × List Nat

/-- An entry of `self.ordinary_packets`: the 4-tuple
`(parts, synchronous, fail_cb, will_have_more)` appended by `send`. -/
structure OrdinaryPacket where
  packet : Packet
  synchronous : Bool
  fail_cb : Option Nat
  will_have_more : Bool
deriving DecidableEq, Repr

/-- An entry of `self.packet_queue` (the bulk queue filled by window sources):
the 7-tuple destructured by `next_packet` as
`packet, _, _, start_send_cb, end_send_cb, fail_cb, will_have_more`. -/
structure BulkPacket where
  packet : Packet
  item2 : Nat
  item3 : Nat
  start_send_cb : Option Nat
  end_send_cb : Option Nat
  fail_cb : Option Nat
  will_have_more : Bool
deriving DecidableEq, Repr

/-- The 7-tuple returned by `next_packet`. -/
structure NextResult where
  packet : Option Packet
  start_send_cb : Option Nat
  end_send_cb : Option Nat
  fail_cb : Option Nat
  synchronous : Bool
  have_more : Bool
  will_have_more : Bool
deriving DecidableEq, Repr

/-- Which of the two timer callbacks a scheduled timer will invoke
(`idle_timedout` or `idle_grace_timedout`). -/
inductive TimerKind where
  | idleT
  | graceT
deriving DecidableEq, Repr

/-- The per-window state read and written by `ClientConnection`:
`ws.suspended`, `ws.window_dimensions`, `ws.statistics.get_damage_pixels()`
(an input, held as a field), the settable `ws.bandwidth_limit` and the
settable av-sync delay (`ws.set_av_sync_delay`). -/
structure WindowSource where
  suspended : Bool
  window_dimensions : Nat × Nat
  damage_pixels : Nat
  bandwidth_limit : Nat
  av_sync_delay : Int
deriving DecidableEq, Repr

/-- The state of one `ClientConnection`, restricted to the fields the
verified methods read or write.  `closed` is the `close_event`; `protocol`
is `some wakeups` while the protocol reference is live (`wakeups` counts
`source_has_more()` calls) and `none` once `close()` cleared it;
`pending_timers` holds the timers registered via `timeout_add` and not yet
fired or removed; `fired_callbacks` logs which timer callbacks were
invoked; `avg_congestion_send_speed` is the
`statistics.avg_congestion_send_speed` input and `sound_source_latency`
the `get_sound_source_latency()` input from the audio subsystem. -/
structure ClientConnection where
  closed : Bool
  protocol : Option Nat
  ordinary_packets : List OrdinaryPacket
  packet_queue : List BulkPacket
  encode_work_queue : List (Option Nat)
  idle_timeout : Nat
  idle_grace_duration : Nat
  idle_timer : Option Nat
  idle_grace_timer : Option Nat
  pending_timers : List (Nat × TimerKind)
  next_timer_id : Nat
  fired_callbacks : List TimerKind
  hello_sent : Bool
  send_notifications : Bool
  suspended : Bool
  notification_callbacks : List (Nat × Nat)
  av_sync : Bool
  av_sync_delay : Int
  av_sync_delta : Int
  av_sync_delay_total : Int
  sound_source_latency : Int
  mmap_size : Nat
  bandwidth_limit : Nat
  soft_bandwidth_limit : Nat
  avg_congestion_send_speed : Nat
  window_sources : List (Nat × WindowSource)
deriving DecidableEq, Repr

/-- Python `dict.get`: first binding of the key, `none` when absent. -/
def dict_get : List (Nat × Nat) → Nat → Option Nat
  | [], _ => none
  | p :: rest, key => if p.1 = key then some p.2 else dict_get rest key

/-- Python `dict[k] = v`: replace the value in place when the key is
present, append a new binding otherwise. -/
def dict_set (m : List (Nat × Nat)) (k v : Nat) : List (Nat × Nat) :=
  if m.any (fun p => p.1 = k) then
    m.map (fun p => if p.1 = k then (k, v) else p)
  else m ++ [(k, v)]

/-- `self.source_remove(timer)`: deregister a scheduled timer. -/
def source_remove (s : ClientConnection) (tid : Nat) : ClientConnection :=
  { s with pending_timers := s.pending_timers.filter (fun t => t.1 ≠ tid) }

/-- `self.timeout_add(delay, cb)`: register a fresh timer and return its
handle. -/
def timeout_add (s : ClientConnection) (kind : TimerKind) : Nat × ClientConnection :=
  (s.next_timer_id,
   { s with pending_timers := s.pending_timers ++ [(s.next_timer_id, kind)],
            next_timer_id := s.next_timer_id + 1 })

/-- `ClientConnection.schedule_idle_timeout` (lines 265-271). -/
def schedule_idle_timeout (s : ClientConnection) : ClientConnection :=
  let s1 := match s.idle_timer with
    | some t => { source_remove s t with idle_timer := none }
    | none => s
  if 0 < s1.idle_timeout then
    let r := timeout_add s1 TimerKind.idleT
    { r.2 with idle_timer := some r.1 }
  else s1

/-- `ClientConnection.schedule_idle_grace_timeout` (lines 273-280). -/
def schedule_idle_grace_timeout (s : ClientConnection) : ClientConnection :=
  let s1 := match s.idle_grace_timer with
    | some t => { source_remove s t with idle_grace_timer := none }
    | none => s
  if 0 < s1.idle_timeout ∧ s1.closed = false then
    let r := timeout_add s1 TimerKind.graceT
    { r.2 with idle_grace_timer := some r.1 }
  else s1

/-- `ClientConnection.idle_grace_timedout` (lines 282-285): clear the
handle and invoke `idle_grace_timeout_cb` unconditionally. -/
def idle_grace_timedout (s : ClientConnection) : ClientConnection :=
  { s with idle_grace_timer := none,
           fired_callbacks := s.fired_callbacks ++ [TimerKind.graceT] }

/-- `ClientConnection.idle_timedout` (lines 287-292): clear the handle,
invoke `idle_timeout_cb`, and re-arm only when the session is not closed. -/
def idle_timedout (s : ClientConnection) : ClientConnection :=
  let s1 := { s with idle_timer := none,
                     fired_callbacks := s.fired_callbacks ++ [TimerKind.idleT] }
  if s1.closed = false then schedule_idle_timeout s1 else s1

/-- The event loop firing a registered timer: a timer only fires while it
is still registered; firing deregisters it and runs its callback. -/
def fire_timer (s : ClientConnection) (tid : Nat) : ClientConnection :=
  match s.pending_timers.find? (fun t => t.1 = tid) with
  | none => s
  | some t =>
    let s1 := { s with pending_timers := s.pending_timers.filter (fun q => q.1 ≠ tid) }
    match t.2 with
    | TimerKind.idleT => idle_timedout s1
    | TimerKind.graceT => idle_grace_timedout s1

/-- `ClientConnection.close` (lines 200-209): mixin `cleanup` calls touch
only mixin-owned state (none of the fields modelled here); then
`close_event.set()`, `encode_work_queue.put(None)` and `protocol = None`.
The idle and grace timers are not touched. -/
def close (s : ClientConnection) : ClientConnection :=
  { s with closed := true,
           encode_work_queue := s.encode_work_queue ++ [none],
           protocol := none }

/-- `ClientConnection.next_packet` (lines 458-467). -/
def next_packet (s : ClientConnection) : NextResult × ClientConnection :=
  if s.closed = false then
    match s.ordinary_packets with
    | op :: rest =>
      ({ packet := some op.packet, start_send_cb := none, end_send_cb := none,
         fail_cb := op.fail_cb, synchronous := op.synchronous,
         have_more := decide (0 < rest.length) || decide (0 < s.packet_queue.length),
         will_have_more := op.will_have_more },
       { s with ordinary_packets := rest })
    | [] =>
      match s.packet_queue with
      | bp :: rest =>
        ({ packet := some bp.packet, start_send_cb := bp.start_send_cb,
           end_send_cb := bp.end_send_cb, fail_cb := bp.fail_cb,
           synchronous := true,
           have_more := decide (0 < rest.length),
           will_have_more := bp.will_have_more },
         { s with packet_queue := rest })
      | [] =>
        ({ packet := none, start_send_cb := none, end_send_cb := none,
           fail_cb := none, synchronous := true, have_more := false,
           will_have_more := false }, s)
  else
    ({ packet := none, start_send_cb := none, end_send_cb := none,
       fail_cb := none, synchronous := true, have_more := false,
       will_have_more := false }, s)

/-- `ClientConnection.send` (lines 469-477): keyword arguments are passed
as `Option`s with the source's defaults (`synchronous=True`,
`will_have_more=not synchronous`, `fail_cb=None`); appends to
`ordinary_packets` and signals `source_has_more()` only while the
protocol reference is live. -/
def send (s : ClientConnection) (parts : Packet)
    (kw_synchronous : Option Bool) (kw_will_have_more : Option Bool)
    (kw_fail_cb : Option Nat) : ClientConnection :=
  let synchronous := kw_synchronous.getD true
  let will_have_more := kw_will_have_more.getD (!synchronous)
  let fail_cb := kw_fail_cb
  match s.protocol with
  | none => s
  | some p =>
    let new_ordinary := s.ordinary_packets ++ [⟨parts, synchronous, fail_cb, will_have_more⟩]
    { s with ordinary_packets := new_ordinary, protocol := some (p + 1) }

/-- `ClientConnection.send_more` (lines 479-481). -/
def send_more (s : ClientConnection) (parts : Packet)
    (kw_synchronous : Option Bool) (kw_fail_cb : Option Nat) : ClientConnection :=
  send s parts kw_synchronous (some true) kw_fail_cb

/-- `ClientConnection.send_async` (lines 483-485). -/
def send_async (s : ClientConnection) (parts : Packet)
    (kw_will_have_more : Option Bool) (kw_fail_cb : Option Nat) : ClientConnection :=
  send s parts (some false) kw_will_have_more kw_fail_cb

/-- The soft-limit computation of `update_bandwidth_limits` (lines
216-226): congestion speed when detection is enabled, zeroed above the
20 Mbit/s high-water mark, tightened by a positive hard limit. -/
def soft_limit_calc (s : ClientConnection) : Nat :=
  let bl := if BANDWIDTH_DETECTION then
      (if 20 * 1024 * 1024 < s.avg_congestion_send_speed then 0
       else s.avg_congestion_send_speed)
    else 0
  if 0 < s.bandwidth_limit then min s.bandwidth_limit bl else bl

/-- The per-window weight of `update_bandwidth_limits` (lines 235-240):
0 when suspended, else `ww*wh + damage_pixels`. -/
def winWeight (ws : WindowSource) : Nat :=
  if ws.suspended then 0
  else ws.window_dimensions.1 * ws.window_dimensions.2 + ws.damage_pixels

/-- The write loop of `update_bandwidth_limits` (lines 244-247):
`ws.bandwidth_limit = max(1, bandwidth_limit*weight//total_weight)` for
every window whose wid has a weight entry; Python `//` by a zero
`total_weight` raises `ZeroDivisionError`. -/
def set_window_limits (bl total_weight : Nat) (window_weight : List (Nat × Nat)) :
    List (Nat × WindowSource) → Except String (List (Nat × WindowSource))
  | [] => Except.ok []
  | p :: rest =>
    match dict_get window_weight p.1 with
    | none => (set_window_limits bl total_weight window_weight rest).map
        (fun r => p :: r)
    | some weight =>
      if total_weight = 0 then Except.error "ZeroDivisionError"
      else (set_window_limits bl total_weight window_weight rest).map
        (fun r => (p.1, { p.2 with
          bandwidth_limit := max 1 (bl * weight / total_weight) }) :: r)

/-- `ClientConnection.update_bandwidth_limits` (lines 212-247). -/
def update_bandwidth_limits (s : ClientConnection) :
    Except String ClientConnection :=
  if 0 < s.mmap_size then Except.ok s
  else
    let bl := soft_limit_calc s
    let s1 := { s with soft_bandwidth_limit := bl }
    if bl ≤ 0 then Except.ok s1
    else
      let window_weight := s1.window_sources.map (fun p => (p.1, winWeight p.2))
      let total_weight := (window_weight.map Prod.snd).sum
      (set_window_limits bl total_weight window_weight s1.window_sources).map
        (fun wss => { s1 with window_sources := wss })

/-- Total window weight: `sum(window_weight.values())` (line 243). -/
def Wsum (s : ClientConnection) : Nat :=
  (s.window_sources.map (fun p => winWeight p.2)).sum

/-- `ClientConnection.update_av_sync_delay_total` (lines 387-396). -/
def update_av_sync_delay_total (s : ClientConnection) : ClientConnection :=
  let s1 :=
    if s.av_sync then
      let encoder_latency := s.sound_source_latency
      let total := min 1000 (max 0 (s.av_sync_delay + s.av_sync_delta + encoder_latency))
      { s with av_sync_delay_total := total }
    else
      { s with av_sync_delay_total := 0 }
  let new_windows := s1.window_sources.map
    (fun p => (p.1, { p.2 with av_sync_delay := s1.av_sync_delay_total }))
  { s1 with window_sources := new_windows }

/-- The desktop-size validation of `parse_hello` (lines 329-334): the
value of `c.intpair("desktop_size")` is kept only when
`0 < w < 32768` and `0 < h < 32768`, otherwise `desktop_size` is set
back to `None`; no exception is raised. -/
def parse_hello_desktop_size : Option (Int × Int) → Option (Int × Int)
  | none => none
  | some (w, h) =>
    if w ≤ 0 ∨ h ≤ 0 ∨ 32768 ≤ w ∨ 32768 ≤ h then none
    else some (w, h)

/-- `ClientConnection.notify` (lines 622-645), restricted to the fields
it reads and writes: the gate on `send_notifications` and `suspended`,
the callback registration keyed by `nid`, and the `notify_show` emission
gated on `hello_sent` (via `send_async`). -/
def notify (s : ClientConnection) (nid : Nat) (user_callback : Option Nat) :
    ClientConnection × Bool :=
  if s.send_notifications = false then (s, false)
  else if s.suspended then (s, false)
  else
    let s1 := match user_callback with
      | some cb => { s with notification_callbacks := dict_set s.notification_callbacks nid cb }
      | none => s
    if s1.hello_sent then
      (send_async s1 ("notify_show", [nid]) none none, true)
    else (s1, true)

/-- `ClientConnection.notify_close` (lines 647-650). -/
def notify_close (s : ClientConnection) (nid : Nat) : ClientConnection :=
  if s.send_notifications = false ∨ s.suspended ∨ s.hello_sent = false then s
  else send_more s ("notify_close", [nid]) none none

/-- The grace-duration computation of `__init__` (line 125):
`max(10, int(idle_timeout*(100-GRACE_PERCENT)//100))`, in seconds. -/
def idle_grace_duration_of (idle_timeout : Nat) : Nat :=
  max 10 (idle_timeout * (100 - GRACE_PERCENT) / 100)

/-- The fields of `__init__`/`init_vars` relevant here, followed by the
constructor's `schedule_idle_grace_timeout(); schedule_idle_timeout()`
calls (lines 110-154, 160-195). -/
def init_conn (protocol : Option Nat) (idle_timeout : Nat)
    (bandwidth_limit : Nat) (av_sync : Bool) : ClientConnection :=
  let s : ClientConnection :=
    { closed := false
      protocol := protocol
      ordinary_packets := []
      packet_queue := []
      encode_work_queue := []
      idle_timeout := idle_timeout
      idle_grace_duration := idle_grace_duration_of idle_timeout
      idle_timer := none
      idle_grace_timer := none
      pending_timers := []
      next_timer_id := 0
      fired_callbacks := []
      hello_sent := false
      send_notifications := false
      suspended := false
      notification_callbacks := []
      av_sync := av_sync
      av_sync_delay := 0
      av_sync_delta := AV_SYNC_DELTA
      av_sync_delay_total := 0
      sound_source_latency := 0
      mmap_size := 0
      bandwidth_limit := bandwidth_limit
      soft_bandwidth_limit := bandwidth_limit
      avg_congestion_send_speed := 0
      window_sources := [] }
  schedule_idle_timeout (schedule_idle_grace_timeout s)

/-- A live session holding one ordinary and one bulk packet. -/
def c1_state : ClientConnection :=
  { init_conn (some 0) 0 0 false with
    ordinary_packets := [⟨("ping", [1]), true, none, false⟩],
    packet_queue := [⟨("draw", [2]), 0, 0, none, none, none, false⟩] }

/-- A session with congestion speed 1000000 (soft limit 1000000 > 0) and a
single registered window that is suspended, so every weight is 0 and the
total weight is 0. -/
def c2_state : ClientConnection :=
  { init_conn (some 0) 0 0 false with
    avg_congestion_send_speed := 1000000,
    window_sources :=
      [(1, { suspended := true, window_dimensions := (100, 100),
             damage_pixels := 0, bandwidth_limit := 0, av_sync_delay := 0 })] }

/-- A session with soft limit 1000 and two registered windows: wid 1 is
suspended (weight 0), wid 2 is active with dimensions 10x10 and no damage
(weight 100); both start with `bandwidth_limit = 7`. -/
def c3_cex_state : ClientConnection :=
  { init_conn (some 0) 0 0 false with
    avg_congestion_send_speed := 1000,
    window_sources :=
      [(1, { suspended := true, window_dimensions := (20, 20),
             damage_pixels := 0, bandwidth_limit := 7, av_sync_delay := 0 }),
       (2, { suspended := false, window_dimensions := (10, 10),
             damage_pixels := 0, bandwidth_limit := 7, av_sync_delay := 0 })] }

/-- A session with soft limit 1000 and two active windows of weights 100
and 300 (the spec's scenario C). -/
def c3_wit_state : ClientConnection :=
  { init_conn (some 0) 0 0 false with
    avg_congestion_send_speed := 1000,
    window_sources :=
      [(1, { suspended := false, window_dimensions := (10, 10),
             damage_pixels := 0, bandwidth_limit := 0, av_sync_delay := 0 }),
       (2, { suspended := false, window_dimensions := (10, 30),
             damage_pixels := 0, bandwidth_limit := 0, av_sync_delay := 0 })] }

/-- A session with soft limit 1 and two active 1x1 windows (each weight
1), so each per-window limit is floored up to 1 and their sum exceeds the
soft limit. -/
def c4_cex_state : ClientConnection :=
  { init_conn (some 0) 0 0 false with
    avg_congestion_send_speed := 1,
    window_sources :=
      [(1, { suspended := false, window_dimensions := (1, 1),
             damage_pixels := 0, bandwidth_limit := 0, av_sync_delay := 0 }),
       (2, { suspended := false, window_dimensions := (1, 1),
             damage_pixels := 0, bandwidth_limit := 0, av_sync_delay := 0 })] }

/-- A session with soft limit 1000 and two active windows of weights 100
and 300. -/
def c4_wit_state : ClientConnection :=
  { init_conn (some 0) 0 0 false with
    avg_congestion_send_speed := 1000,
    window_sources :=
      [(1, { suspended := false, window_dimensions := (10, 10),
             damage_pixels := 0, bandwidth_limit := 0, av_sync_delay := 0 }),
       (2, { suspended := false, window_dimensions := (10, 30),
             damage_pixels := 0, bandwidth_limit := 0, av_sync_delay := 0 })] }

/-- A freshly constructed session with a 60 second idle timeout: the
constructor arms the grace timer (id 0) and the idle timer (id 1). -/
def c6_state : ClientConnection := init_conn (some 0) 60 0 false

/-- A session with av-sync enabled whose delay components sum to a
negative value: client delay 100, delta -200, encoder latency 50. -/
def c7_state : ClientConnection :=
  { init_conn (some 0) 0 0 true with
    av_sync_delay := 100, av_sync_delta := -200, sound_source_latency := 50 }

/-- A session that negotiated notification support, is not suspended,
and has sent its hello packet. -/
def c9_state : ClientConnection :=
  { init_conn (some 3) 0 0 false with
    send_notifications := true, hello_sent := true }

/-- A session that negotiated notification support and is not suspended,
but has not yet sent its hello packet. -/
def c9_prehello_state : ClientConnection :=
  { init_conn (some 3) 0 0 false with send_notifications := true }

theorem schedule_idle_timeout_grace_duration (s : ClientConnection) :
    (schedule_idle_timeout s).idle_grace_duration = s.idle_grace_duration := by
  unfold schedule_idle_timeout
  cases s.idle_timer <;> dsimp [source_remove, timeout_add] <;> split <;> rfl

theorem schedule_idle_grace_timeout_grace_duration (s : ClientConnection) :
    (schedule_idle_grace_timeout s).idle_grace_duration = s.idle_grace_duration := by
  unfold schedule_idle_grace_timeout
  cases s.idle_grace_timer <;> dsimp [source_remove, timeout_add] <;> split <;> rfl

/-- C1: for an open session, `next_packet` always returns and removes the
front ordinary entry while any ordinary entry is queued (leaving the bulk
queue untouched), and dequeues a bulk entry only once `ordinary_packets`
is empty. -/
theorem next_packet_ordinary_first (s : ClientConnection) (h : s.closed = false) :
    (∀ op rest, s.ordinary_packets = op :: rest →
      next_packet s =
        ({ packet := some op.packet, start_send_cb := none, end_send_cb := none,
           fail_cb := op.fail_cb, synchronous := op.synchronous,
           have_more := decide (0 < rest.length) || decide (0 < s.packet_queue.length),
           will_have_more := op.will_have_more },
         { s with ordinary_packets := rest })) ∧
    (s.ordinary_packets ≠ [] → (next_packet s).2.packet_queue = s.packet_queue) ∧
    (s.ordinary_packets = [] → ∀ bp rest, s.packet_queue = bp :: rest →
      (next_packet s).1.packet = some bp.packet ∧
      (next_packet s).2.packet_queue = rest) := by
  refine ⟨?_, ?_, ?_⟩
  · intro op rest hl
    simp [next_packet, h, hl]
  · intro hne
    cases hl : s.ordinary_packets with
    | nil => exact absurd hl hne
    | cons op rest => simp [next_packet, h, hl]
  · intro hl bp rest hq
    simp [next_packet, h, hl, hq]

/-- C1 witness: on a live session holding one ordinary and one bulk
packet, the theorem applies and the bulk queue is untouched. -/
theorem next_packet_ordinary_first_witness :
    c1_state.closed = false ∧ c1_state.ordinary_packets ≠ [] ∧
    (next_packet c1_state).2.packet_queue = c1_state.packet_queue :=
  ⟨rfl, by decide, (next_packet_ordinary_first c1_state rfl).2.1 (by decide)⟩

/-- C2: the claim that a zero total window weight cannot cause a
division-by-zero fails on the code: with a positive soft limit and one
registered (suspended) window, every weight is 0, the total weight is 0,
the write loop still runs for that window (its weight entry is not None),
and `bandwidth_limit*weight//total_weight` raises `ZeroDivisionError`. -/
theorem update_bandwidth_limits_zero_weight_raises :
    update_bandwidth_limits c2_state = Except.error "ZeroDivisionError" := by
  rfl

/-- C5 counterexample: at idle_timeout = 10 seconds the computed grace
duration is 10, which is not strictly less than the idle timeout, so the
claimed bound `grace_duration < idle_timeout` fails for this
idle_timeout > 0. -/
theorem idle_grace_duration_not_lt_cex :
    0 < 10 ∧ idle_grace_duration_of 10 = 10 ∧
    ¬ idle_grace_duration_of 10 < 10 := by
  decide

/-- C5 (amended): the grace duration stored at construction equals
`max 10 (idle_timeout*(100-GRACE_PERCENT)/100)` seconds with
GRACE_PERCENT defaulting to 90; it is always at least 10 seconds, and it
is strictly less than the idle timeout whenever the idle timeout exceeds
10 seconds (for idle timeouts of at most 10 seconds it equals 10 and is
not below the idle timeout). -/
theorem idle_grace_duration_spec (t : Nat) (p : Option Nat) (bl : Nat) (av : Bool) :
    (init_conn p t bl av).idle_grace_duration = idle_grace_duration_of t ∧
    idle_grace_duration_of t = max 10 (t * (100 - GRACE_PERCENT) / 100) ∧
    10 ≤ idle_grace_duration_of t ∧
    (10 < t → idle_grace_duration_of t < t) := by
  refine ⟨?_, rfl, le_max_left _ _, ?_⟩
  · rw [init_conn]
    rw [schedule_idle_timeout_grace_duration, schedule_idle_grace_timeout_grace_duration]
  · intro ht
    rw [idle_grace_duration_of, GRACE_PERCENT]
    rw [Nat.max_lt]
    constructor
    · exact ht
    · omega

/-- C5 witness: at idle_timeout = 60 seconds the grace duration is below
the idle timeout. -/
theorem idle_grace_duration_spec_witness :
    10 < 60 ∧ idle_grace_duration_of 60 < 60 :=
  ⟨by decide, (idle_grace_duration_spec 60 none 0 false).2.2.2 (by decide)⟩

/-- C6 counterexample: on a freshly constructed session with
idle_timeout = 60, `close` leaves both the grace timer (id 0) and the
idle timer (id 1) armed and registered, and each of them still fires its
callback after the session was closed — refuting the claim that close
cancels both timers and that no further callbacks fire. -/
theorem close_leaves_timers_armed_cex :
    (close c6_state).idle_timer = some 1 ∧
    (close c6_state).idle_grace_timer = some 0 ∧
    (close c6_state).pending_timers = [(0, TimerKind.graceT), (1, TimerKind.idleT)] ∧
    (fire_timer (close c6_state) 0).fired_callbacks = [TimerKind.graceT] ∧
    (fire_timer (close c6_state) 1).fired_callbacks = [TimerKind.idleT] :=
  ⟨rfl, rfl, rfl, rfl, rfl⟩

/-- C6 (amended): `close` marks the session closed (so `next_packet`
returns the all-none/empty tuple), appends exactly one end-of-stream
sentinel to the encode work queue and clears the protocol reference; it
cancels neither the idle nor the grace timer (handles and registrations
are unchanged, so an armed timer still fires its callback once after
close), but once closed `idle_timedout` no longer re-arms the idle timer
and `schedule_idle_grace_timeout` arms no new grace timer. -/
theorem close_spec (s : ClientConnection) :
    (close s).closed = true ∧
    (close s).encode_work_queue = s.encode_work_queue ++ [none] ∧
    (close s).protocol = none ∧
    (close s).idle_timer = s.idle_timer ∧
    (close s).idle_grace_timer = s.idle_grace_timer ∧
    (close s).pending_timers = s.pending_timers ∧
    (next_packet (close s)).1 =
      ⟨none, none, none, none, true, false, false⟩ ∧
    (idle_timedout (close s)).idle_timer = none ∧
    (idle_timedout (close s)).pending_timers = s.pending_timers ∧
    (schedule_idle_grace_timeout (close s)).idle_grace_timer = none := by
  refine ⟨rfl, rfl, rfl, rfl, rfl, rfl, rfl, rfl, rfl, ?_⟩
  unfold schedule_idle_grace_timeout
  cases hg : (close s).idle_grace_timer with
  | none =>
    simp [close] at hg
    simp [close, hg]
  | some t => simp [close, source_remove]

/-- C7: `update_av_sync_delay_total` sets the total to 0 whenever av-sync
is disabled, and otherwise to
`clamp(av_sync_delay + av_sync_delta + encoder_latency, 0, 1000)`; in
every case the total lies in [0, 1000] and is pushed to every registered
window source. -/
theorem update_av_sync_delay_total_spec (s : ClientConnection) :
    (s.av_sync = false → (update_av_sync_delay_total s).av_sync_delay_total = 0) ∧
    (s.av_sync = true → (update_av_sync_delay_total s).av_sync_delay_total =
      min 1000 (max 0 (s.av_sync_delay + s.av_sync_delta + s.sound_source_latency))) ∧
    0 ≤ (update_av_sync_delay_total s).av_sync_delay_total ∧
    (update_av_sync_delay_total s).av_sync_delay_total ≤ 1000 ∧
    (update_av_sync_delay_total s).window_sources = s.window_sources.map
      (fun p => (p.1, { p.2 with
        av_sync_delay := (update_av_sync_delay_total s).av_sync_delay_total })) := by
  refine ⟨?_, ?_, ?_, ?_, ?_⟩
  · intro h; simp [update_av_sync_delay_total, h]
  · intro h; simp [update_av_sync_delay_total, h]
  · cases h : s.av_sync
    · simp [update_av_sync_delay_total, h]
    · simp only [update_av_sync_delay_total, h, if_true]
      exact le_min (by norm_num) (le_max_left _ _)
  · cases h : s.av_sync
    · simp [update_av_sync_delay_total, h]
    · simp only [update_av_sync_delay_total, h, if_true]
      exact min_le_left _ _
  · cases h : s.av_sync <;> simp [update_av_sync_delay_total, h]

/-- C7 witness: with av-sync enabled and components 100, -200, 50 the
clamped total is 0, never negative. -/
theorem update_av_sync_delay_total_spec_witness :
    c7_state.av_sync = true ∧
    (update_av_sync_delay_total c7_state).av_sync_delay_total =
      min 1000 (max 0 (c7_state.av_sync_delay + c7_state.av_sync_delta +
        c7_state.sound_source_latency)) ∧
    (update_av_sync_delay_total c7_state).av_sync_delay_total = 0 :=
  ⟨rfl, (update_av_sync_delay_total_spec c7_state).2.1 rfl, by decide⟩

/-- C8: `parse_hello` keeps `desktop_size` only when both dimensions lie
strictly between 0 and 32768; any pair with an out-of-range coordinate
leaves `desktop_size` unset (`None`) and no error is raised (the
validation is a total function). -/
theorem parse_hello_desktop_size_spec (w h : Int) :
    ((w ≤ 0 ∨ h ≤ 0 ∨ 32768 ≤ w ∨ 32768 ≤ h) →
      parse_hello_desktop_size (some (w, h)) = none) ∧
    (0 < w → w < 32768 → 0 < h → h < 32768 →
      parse_hello_desktop_size (some (w, h)) = some (w, h)) := by
  constructor
  · intro hout
    simp [parse_hello_desktop_size, hout]
  · intro h1 h2 h3 h4
    show (if w ≤ 0 ∨ h ≤ 0 ∨ 32768 ≤ w ∨ 32768 ≤ h then none
          else some (w, h)) = some (w, h)
    rw [if_neg]
    omega

/-- C8 witness: the pair (40000, 10) is rejected and `desktop_size`
stays unset. -/
theorem parse_hello_desktop_size_spec_witness :
    ((40000 : Int) ≤ 0 ∨ (10 : Int) ≤ 0 ∨ (32768 : Int) ≤ 40000 ∨
      (32768 : Int) ≤ 10) ∧
    parse_hello_desktop_size (some (40000, 10)) = none :=
  ⟨by omega, (parse_hello_desktop_size_spec 40000 10).1 (by omega)⟩

/-- C10: once `close` has cleared the protocol reference, `send` (and
hence `send_more` and `send_async`) is a silent no-op: the state is
unchanged, so no entry is appended to `ordinary_packets`, no
`source_has_more` wakeup is signalled, and (the embedding being a total
function) no exception is raised. -/
theorem send_after_close_noop (s : ClientConnection) (parts : Packet)
    (k1 k2 : Option Bool) (k3 : Option Nat) :
    (close s).protocol = none ∧
    send (close s) parts k1 k2 k3 = close s ∧
    send_more (close s) parts k1 k3 = close s ∧
    send_async (close s) parts k2 k3 = close s :=
  ⟨rfl, rfl, rfl, rfl⟩

theorem div_add_div_le_add_div (a b W : Nat) : a / W + b / W ≤ (a + b) / W := by
  rcases Nat.eq_zero_or_pos W with h | h
  · simp [h]
  · rw [Nat.le_div_iff_mul_le h, Nat.add_mul]
    exact Nat.add_le_add (Nat.div_mul_le_self a W) (Nat.div_mul_le_self b W)

theorem sum_map_div_le {α : Type} (f : α → Nat) (W : Nat) (l : List α) :
    (l.map (fun x => f x / W)).sum ≤ (l.map f).sum / W := by
  induction l with
  | nil => simp
  | cons a rest ih =>
    simp only [List.map_cons, List.sum_cons]
    calc f a / W + (rest.map (fun x => f x / W)).sum
        ≤ f a / W + (rest.map f).sum / W := Nat.add_le_add_left ih _
      _ ≤ (f a + (rest.map f).sum) / W := div_add_div_le_add_div _ _ _

theorem sum_map_one_add {α : Type} (g : α → Nat) (l : List α) :
    (l.map (fun a => 1 + g a)).sum = l.length + (l.map g).sum := by
  induction l with
  | nil => rfl
  | cons a rest ih =>
    simp only [List.map_cons, List.sum_cons, List.length_cons, ih]
    omega

theorem set_window_limits_ok (bl W : Nat) (ww : List (Nat × Nat))
    (l : List (Nat × WindowSource)) (hW : W ≠ 0) :
    set_window_limits bl W ww l = Except.ok (l.map (fun p =>
      match dict_get ww p.1 with
      | none => p
      | some w => (p.1, { p.2 with bandwidth_limit := max 1 (bl * w / W) }))) := by
  induction l with
  | nil => rfl
  | cons p rest ih =>
    cases h : dict_get ww p.1 with
    | none => simp [set_window_limits, h, ih, Except.map]
    | some w => simp [set_window_limits, h, hW, ih, Except.map]

theorem dict_get_map_winWeight (l : List (Nat × WindowSource))
    (hnd : (l.map Prod.fst).Nodup) (p : Nat × WindowSource) (hp : p ∈ l) :
    dict_get (l.map (fun q => (q.1, winWeight q.2))) p.1 = some (winWeight p.2) := by
  induction l with
  | nil => cases hp
  | cons q rest ih =>
    rw [List.map_cons, List.nodup_cons] at hnd
    rcases List.mem_cons.mp hp with h | h
    · subst h
      simp [dict_get]
    · have hne : q.1 ≠ p.1 := by
        intro he
        exact hnd.1 (by rw [he]; exact List.mem_map.mpr ⟨p, h, rfl⟩)
      simp only [List.map_cons, dict_get, hne, if_false]
      exact ih hnd.2 h

theorem update_bw_char (s : ClientConnection) (hm : s.mmap_size = 0)
    (hnd : (s.window_sources.map Prod.fst).Nodup)
    (hL : 0 < soft_limit_calc s) (hW : 0 < Wsum s) :
    update_bandwidth_limits s = Except.ok { s with
      soft_bandwidth_limit := soft_limit_calc s,
      window_sources := s.window_sources.map (fun p => (p.1, { p.2 with
        bandwidth_limit := max 1 (soft_limit_calc s * winWeight p.2 / Wsum s) })) } := by
  have htot : ((s.window_sources.map (fun p => (p.1, winWeight p.2))).map
      Prod.snd).sum = Wsum s := by
    rw [List.map_map]
    rfl
  unfold update_bandwidth_limits
  rw [hm]
  simp only [Nat.lt_irrefl, if_false]
  rw [if_neg (by omega)]
  rw [htot]
  rw [set_window_limits_ok _ _ _ _ (by omega)]
  simp only [Except.map]
  congr 1
  congr 1
  apply List.map_congr_left
  intro p hp
  rw [dict_get_map_winWeight s.window_sources hnd p hp]

/-- C3 counterexample: with soft limit 1000, a suspended (weight 0)
window next to an active one (weight 100) has its bandwidth limit
overwritten from 7 to 1 — an explicit limit is written for the
zero-weight window, refuting the claim that suspended windows get no
explicit limit. -/
theorem suspended_window_gets_limit_cex :
    (update_bandwidth_limits c3_cex_state).map
      (fun s2 => s2.window_sources.map (fun p => p.2.bandwidth_limit)) =
      Except.ok [1, 1000] ∧
    c3_cex_state.window_sources.map (fun p => p.2.bandwidth_limit) = [7, 7] ∧
    c3_cex_state.window_sources.map (fun p => winWeight p.2) = [0, 100] ∧
    c3_cex_state.window_sources.map (fun p => p.2.suspended) = [true, false] :=
  ⟨rfl, rfl, rfl, rfl⟩

/-- C3 (amended): when the soft limit L is positive and the total weight
W is positive, every registered window — suspended (zero-weight) ones
included — has its bandwidth limit set to max(1, floor(L*w/W)) where w is
its weight (0 when suspended, else area plus damaged pixels); suspended
windows therefore receive the floor limit 1 rather than no limit. -/
theorem update_bandwidth_limits_sets_all (s : ClientConnection)
    (hm : s.mmap_size = 0) (hnd : (s.window_sources.map Prod.fst).Nodup)
    (hL : 0 < soft_limit_calc s) (hW : 0 < Wsum s) :
    update_bandwidth_limits s = Except.ok { s with
      soft_bandwidth_limit := soft_limit_calc s,
      window_sources := s.window_sources.map (fun p => (p.1, { p.2 with
        bandwidth_limit := max 1 (soft_limit_calc s * winWeight p.2 / Wsum s) })) } :=
  update_bw_char s hm hnd hL hW

/-- C3 witness: the spec's scenario C — two active windows of weights 100
and 300, soft limit 1000 — receives limits 250 and 750. -/
theorem update_bandwidth_limits_sets_all_witness :
    c3_wit_state.mmap_size = 0 ∧
    (c3_wit_state.window_sources.map Prod.fst).Nodup ∧
    0 < soft_limit_calc c3_wit_state ∧ 0 < Wsum c3_wit_state ∧
    update_bandwidth_limits c3_wit_state = Except.ok { c3_wit_state with
      soft_bandwidth_limit := soft_limit_calc c3_wit_state,
      window_sources := c3_wit_state.window_sources.map (fun p => (p.1, { p.2 with
        bandwidth_limit :=
          max 1 (soft_limit_calc c3_wit_state * winWeight p.2 / Wsum c3_wit_state) })) } :=
  ⟨rfl, by decide, by decide, by decide,
   update_bandwidth_limits_sets_all c3_wit_state rfl (by decide) (by decide) (by decide)⟩

/-- C4 counterexample: with soft limit 1 and two active windows of weight
1 each, both per-window limits are floored up to 1 and their sum 2
exceeds the soft limit 1 — the allocation can overcommit the soft
limit. -/
theorem bandwidth_overcommit_cex :
    soft_limit_calc c4_cex_state = 1 ∧
    (update_bandwidth_limits c4_cex_state).map
      (fun s2 => (s2.window_sources.map (fun p => p.2.bandwidth_limit)).sum) =
      Except.ok 2 ∧
    ¬ (2 : Nat) ≤ 1 :=
  ⟨rfl, rfl, by decide⟩

theorem sum_max_one_div_le {α : Type} (L W : Nat) (hW : 0 < W) (wt : α → Nat)
    (l : List α) (hsum : (l.map wt).sum = W) :
    (l.map (fun q => max 1 (L * wt q / W))).sum ≤ L + l.length := by
  have h1 : ∀ q ∈ l, max 1 (L * wt q / W) ≤ 1 + L * wt q / W := by
    intro q _
    exact max_le (Nat.le_add_right _ _) (Nat.le_add_left _ _)
  calc (l.map (fun q => max 1 (L * wt q / W))).sum
      ≤ (l.map (fun q => 1 + L * wt q / W)).sum := List.sum_le_sum h1
    _ = l.length + (l.map (fun q => L * wt q / W)).sum := sum_map_one_add _ _
    _ ≤ l.length + (l.map (fun q => L * wt q)).sum / W :=
        Nat.add_le_add_left (sum_map_div_le (fun q => L * wt q) W l) _
    _ = l.length + L * (l.map wt).sum / W := by rw [List.sum_map_mul_left]
    _ = l.length + L * W / W := by rw [hsum]
    _ = l.length + L := by rw [Nat.mul_div_cancel _ hW]
    _ = L + l.length := Nat.add_comm _ _

/-- C4 (amended): with positive soft limit L and positive total weight W,
every registered window's computed limit is at least 1, and the sum of
the computed limits is at most L plus the number of registered windows
(each window's floored share can exceed its exact share by less than one
unit, so the one-unit floor per window is the only source of
overcommitment; the claimed bound sum ≤ L alone does not hold). -/
theorem update_bandwidth_limits_floor_sum (s : ClientConnection)
    (hm : s.mmap_size = 0) (hnd : (s.window_sources.map Prod.fst).Nodup)
    (hL : 0 < soft_limit_calc s) (hW : 0 < Wsum s) :
    ∃ s2, update_bandwidth_limits s = Except.ok s2 ∧
      (∀ p ∈ s2.window_sources, 1 ≤ p.2.bandwidth_limit) ∧
      (s2.window_sources.map (fun p => p.2.bandwidth_limit)).sum ≤
        soft_limit_calc s + s.window_sources.length := by
  refine ⟨_, update_bw_char s hm hnd hL hW, ?_, ?_⟩
  · intro p hp
    rcases List.mem_map.mp hp with ⟨q, _, rfl⟩
    exact le_max_left _ _
  · have hmap : (((s.window_sources.map (fun p => (p.1, { p.2 with
        bandwidth_limit :=
          max 1 (soft_limit_calc s * winWeight p.2 / Wsum s) })))).map
          (fun p => p.2.bandwidth_limit)) =
        s.window_sources.map
          (fun q => max 1 (soft_limit_calc s * winWeight q.2 / Wsum s)) := by
      rw [List.map_map]
      rfl
    rw [hmap]
    exact sum_max_one_div_le (soft_limit_calc s) (Wsum s) hW
      (fun p => winWeight p.2) s.window_sources (by rw [Wsum])

/-- C4 witness: on two active windows of weights 100 and 300 with soft
limit 1000, the theorem applies. -/
theorem update_bandwidth_limits_floor_sum_witness :
    c4_wit_state.mmap_size = 0 ∧
    (c4_wit_state.window_sources.map Prod.fst).Nodup ∧
    0 < soft_limit_calc c4_wit_state ∧ 0 < Wsum c4_wit_state ∧
    (∃ s2, update_bandwidth_limits c4_wit_state = Except.ok s2 ∧
      (∀ p ∈ s2.window_sources, 1 ≤ p.2.bandwidth_limit) ∧
      (s2.window_sources.map (fun p => p.2.bandwidth_limit)).sum ≤
        soft_limit_calc c4_wit_state + c4_wit_state.window_sources.length) :=
  ⟨rfl, by decide, by decide, by decide,
   update_bandwidth_limits_floor_sum c4_wit_state rfl (by decide) (by decide) (by decide)⟩

theorem dict_get_dict_set (m : List (Nat × Nat)) (k v : Nat) :
    dict_get (dict_set m k v) k = some v := by
  induction m with
  | nil => simp [dict_set, dict_get]
  | cons p rest ih =>
    by_cases hp : p.1 = k
    · simp [dict_set, dict_get, hp]
    · by_cases hr : rest.any (fun q => decide (q.1 = k))
      · simp [dict_set, dict_get, hp, hr] at ih ⊢
        exact ih
      · simp [dict_set, dict_get, hp, hr] at ih ⊢
        exact ih

/-- C9: `notify` returns false with no state change when the client has
not negotiated notification support or the session is suspended;
otherwise it returns true, records the user callback under the
notification id (overwriting any prior entry), and emits the
`notify_show` message only when the hello packet has been sent (before
hello the callback is still recorded and nothing is emitted);
`notify_close` emits a `notify_close` message exactly when notifications
are supported, the session is not suspended and hello has been sent. -/
theorem notify_spec (s : ClientConnection) (nid cb p : Nat) :
    (s.send_notifications = false → notify s nid (some cb) = (s, false)) ∧
    (s.suspended = true → notify s nid (some cb) = (s, false)) ∧
    (s.send_notifications = true → s.suspended = false →
      (notify s nid (some cb)).2 = true ∧
      (notify s nid (some cb)).1.notification_callbacks =
        dict_set s.notification_callbacks nid cb ∧
      dict_get (notify s nid (some cb)).1.notification_callbacks nid = some cb ∧
      (s.hello_sent = false → (notify s nid (some cb)).1 =
        { s with notification_callbacks := dict_set s.notification_callbacks nid cb }) ∧
      (s.hello_sent = true → s.protocol = some p → (notify s nid (some cb)).1 =
        { s with
          notification_callbacks := dict_set s.notification_callbacks nid cb,
          ordinary_packets := s.ordinary_packets ++
            [⟨("notify_show", [nid]), false, none, true⟩],
          protocol := some (p + 1) })) ∧
    ((s.send_notifications = false ∨ s.suspended = true ∨ s.hello_sent = false) →
      notify_close s nid = s) ∧
    (s.send_notifications = true → s.suspended = false → s.hello_sent = true →
      s.protocol = some p →
      notify_close s nid = { s with
        ordinary_packets := s.ordinary_packets ++
          [⟨("notify_close", [nid]), true, none, true⟩],
        protocol := some (p + 1) }) := by
  refine ⟨?_, ?_, ?_, ?_, ?_⟩
  · intro h
    simp [notify, h]
  · intro h
    simp [notify, h]
  · intro h1 h2
    have hcb : (notify s nid (some cb)).1.notification_callbacks =
        dict_set s.notification_callbacks nid cb := by
      cases hh : s.hello_sent
      · simp [notify, h1, h2, hh]
      · cases hp2 : s.protocol <;>
          simp [notify, h1, h2, hh, send_async, send, hp2]
    refine ⟨?_, hcb, ?_, ?_, ?_⟩
    · cases hh : s.hello_sent <;> simp [notify, h1, h2, hh]
    · rw [hcb]
      exact dict_get_dict_set _ _ _
    · intro hh
      simp [notify, h1, h2, hh]
    · intro hh hp2
      simp [notify, h1, h2, hh, send_async, send, hp2]
  · intro h
    rcases h with h | h | h <;> simp [notify_close, h]
  · intro h1 h2 h3 hp2
    simp [notify_close, h1, h2, h3, send_more, send, hp2]

/-- C9 witness: on a supported, unsuspended session after hello the call
returns true, the callback is recorded under its id, and on a
pre-hello session the callback is recorded with nothing emitted. -/
theorem notify_spec_witness :
    c9_state.send_notifications = true ∧ c9_state.suspended = false ∧
    c9_state.hello_sent = true ∧ c9_state.protocol = some 3 ∧
    (notify c9_state 7 (some 5)).2 = true ∧
    dict_get (notify c9_state 7 (some 5)).1.notification_callbacks 7 = some 5 ∧
    c9_prehello_state.hello_sent = false ∧
    (notify c9_prehello_state 7 (some 5)).1 =
      { c9_prehello_state with
        notification_callbacks :=
          dict_set c9_prehello_state.notification_callbacks 7 5 } :=
  ⟨rfl, rfl, rfl, rfl, ((notify_spec c9_state 7 5 3).2.2.1 rfl rfl).1,
   ((notify_spec c9_state 7 5 3).2.2.1 rfl rfl).2.2.1,
   rfl, ((notify_spec c9_prehello_state 7 5 0).2.2.1 rfl rfl).2.2.2.1 rfl⟩

end Xpra
